import Mathlib

/-!
Verification of the identifier-resolution and annotation-enrichment pipeline
of the Prism repository.

The development shallowly embeds the relevant Python scripts:

* `scripts/map_pdb_to_uniprot.py` — the PDB→UniProt mapper with resume
  capability: checkpoint dictionary (JSON object `pdb_id → uniprot_id | null`),
  the `unmapped_ids` computation, the dual-backend `fetch_uniprot` with its
  two-attempt retry loop, and the result-recording loop with periodic saves.
* `scripts/fetch_disease_labels.py` — the resumable disease-label fetcher:
  mapping cache, partial-results skip set, and the annotation parser
  `fetch_uniprot_disease`.
* `scripts/merge_anomalies_with_disease.py` — the pandas left-join merger and
  its coverage summary.

Machine-level details are modelled explicitly: Python dictionaries become
ordered association lists (later assignment overwrites in place), Python
truthiness of a JSON value (`null`/`""` falsy) becomes `truthy`, HTTP
responses become an inductive with an exception constructor, and the string
operations used by the scripts (`str.upper`, `str.strip`, `split("\n")[0]`)
are given executable character-list definitions faithful to the ASCII data
the scripts handle.
-/

namespace Prism

/-! ### String helpers (Python `str` semantics on the scripts' ASCII data) -/

/-- `str.upper` on one character (ASCII range, as PDB/UniProt ids are ASCII). -/
def upperChar (c : Char) : Char :=
  if 'a' ≤ c ∧ c ≤ 'z' then Char.ofNat (c.toNat - 32) else c

/-- Python `s.upper()`. -/
def upperStr (s : String) : String :=
  String.mk (s.data.map upperChar)

/-- Whitespace recognised by Python `str.strip()` (the subset occurring in
HTTP text bodies). -/
def isWS (c : Char) : Bool := c == ' ' || c == '\n' || c == '\t' || c == '\r'

/-- Python `s.strip()`. -/
def stripStr (s : String) : String :=
  String.mk (((s.data.dropWhile isWS).reverse.dropWhile isWS).reverse)

/-- Characters before the first newline. -/
def firstLineChars : List Char → List Char
  | [] => []
  | c :: cs => if c == '\n' then [] else c :: firstLineChars cs

/-- Python `s.split("\n")[0]`. -/
def firstLine (s : String) : String := String.mk (firstLineChars s.data)

/-! ### Checkpoint store (`pdb_to_uniprot.json`)

The on-disk checkpoint is a JSON object mapping a PDB id to a UniProt
accession string or `null`.  A Python dict preserves insertion order and
assignment overwrites in place, so the store is an ordered association list
`List (String × Option String)` with in-place update. -/

abbrev Ckpt := List (String × Option String)

/-- Dictionary lookup: `some v` when the key is present (`v` may itself be
`none`, i.e. JSON `null`), `none` when the key is absent. -/
def lookupCk : Ckpt → String → Option (Option String)
  | [], _ => none
  | (k, v) :: rest, key => if k == key then some v else lookupCk rest key

/-- Dictionary assignment `d[key] = val`: overwrite in place, else append. -/
def insertCk : Ckpt → String → Option String → Ckpt
  | [], key, val => [(key, val)]
  | (k, v) :: rest, key, val =>
    if k == key then (k, val) :: rest else (k, v) :: insertCk rest key val

/-- Python truthiness of a JSON string-or-null value: `null` and `""` are
falsy, every other string truthy. -/
def truthy : Option String → Bool
  | none => false
  | some s => s != ""

/-- The filter condition of `map_pdb_to_uniprot.py` line 98:
`p not in pdb_to_uniprot or not pdb_to_uniprot[p]`. -/
def needs_fetch (cp : Ckpt) (p : String) : Bool :=
  match lookupCk cp p with
  | none => true
  | some v => !(truthy v)

/-- `unmapped_ids = [p for p in pdb_ids if p not in d or not d[p]]`
(line 98 of `map_pdb_to_uniprot.py`). -/
def unmapped_ids (ids : List String) (cp : Ckpt) : List String :=
  ids.filter (needs_fetch cp)

/-- The result-recording loop (lines 110–124): each completed future assigns
`pdb_to_uniprot[pdb_id] = uniprot_id`.  `rs` is the list of
`(pdb_id, fetch result)` pairs in completion order; a prefix of the fold is
the in-memory dictionary at any periodic save point. -/
def apply_results (cp : Ckpt) (rs : List (String × Option String)) : Ckpt :=
  rs.foldl (fun c kv => insertCk c kv.1 kv.2) cp

/-! ### Network backends of `map_pdb_to_uniprot.py`

An HTTP interaction either raises (timeout, connection error — the scripts
catch every exception) or yields a status code and a body. -/

inductive HResp where
  | exn : HResp
  | http : Nat → String → HResp

/-- `fetch_uniprot_from_uniprot_api` (lines 38–47): on exception `None`;
on a 200 response with non-empty stripped body, the first line of the
stripped body; otherwise `None`. -/
def fetch_uniprot_from_uniprot_api : HResp → Option String
  | HResp.exn => none
  | HResp.http st body =>
    if st == 200 && (stripStr body != "") then some (firstLine (stripStr body))
    else none

/-- One reference-sequence identifier from an RCSB polymer-entity payload;
either field may be absent from the JSON. -/
structure SeqRef where
  database_name : Option String
  database_accession : Option String

/-- One RCSB polymer-entity response: exception, or status plus the
`reference_sequence_identifiers` list extracted from the payload. -/
inductive RResp where
  | exn : RResp
  | http : Nat → List SeqRef → RResp

/-- `fetch_uniprot_from_rcsb` (lines 50–64): iterate the entity responses;
exceptions and non-200 statuses are skipped; on a 200 response the first
reference whose `database_name` is `"UniProt"` causes an immediate
`return ref.get("database_accession")` — even when that accession is absent
(returning `None` without trying later entities). -/
def fetch_uniprot_from_rcsb : List RResp → Option String
  | [] => none
  | RResp.exn :: rest => fetch_uniprot_from_rcsb rest
  | RResp.http st refs :: rest =>
    if st == 200 then
      match refs.find? (fun r => r.database_name == some "UniProt") with
      | some r => r.database_accession
      | none => fetch_uniprot_from_rcsb rest
    else fetch_uniprot_from_rcsb rest

/-- The responses one retry attempt of `fetch_uniprot` would observe:
a primary (UniProt query API) response and the list of RCSB entity
responses. -/
structure Attempt where
  prim : HResp
  rcsb : List RResp

/-- `fetch_uniprot` (lines 67–77), parameterised by the per-attempt
responses: primary first, `if uid: return uid`, then RCSB fallback, else
`time.sleep(0.3)` and the next attempt; `None` after the last attempt. -/
def fetch_uniprot_go : List Attempt → Option String
  | [] => none
  | a :: rest =>
    let uid := fetch_uniprot_from_uniprot_api a.prim
    if truthy uid then uid
    else
      let uid2 := fetch_uniprot_from_rcsb a.rcsb
      if truthy uid2 then uid2
      else fetch_uniprot_go rest

/-- `fetch_uniprot` with its source-fixed `range(2)` attempt budget. -/
def fetch_uniprot (a1 a2 : Attempt) : Option String :=
  fetch_uniprot_go [a1, a2]

/-- Instrumented semantics of the same control flow: the result together
with how many primary calls and RCSB fallback calls were issued and the
sleep delays (in seconds) executed between/after failed attempts. -/
structure FetchTrace where
  result : Option String
  prim_calls : Nat
  rcsb_calls : Nat
  delays : List ℚ

/-- Instrumentation of `fetch_uniprot_go`; the `0.3` in `time.sleep(0.3)`
is the constant `3/10`. -/
def fetch_uniprot_trace : List Attempt → FetchTrace
  | [] => ⟨none, 0, 0, []⟩
  | a :: rest =>
    let uid := fetch_uniprot_from_uniprot_api a.prim
    if truthy uid then ⟨uid, 1, 0, []⟩
    else
      let uid2 := fetch_uniprot_from_rcsb a.rcsb
      if truthy uid2 then ⟨uid2, 1, 1, []⟩
      else
        let t := fetch_uniprot_trace rest
        ⟨t.result, t.prim_calls + 1, t.rcsb_calls + 1, (3/10 : ℚ) :: t.delays⟩

/-! ### Annotation fetch (`fetch_disease_labels.py`) -/

/-- One entry of the UniProt `comments` array as far as the script reads it:
its `commentType` and, inside `disease`, the optional `diseaseId` and
`diseaseDescription` fields. -/
structure DisComment where
  commentType : String
  diseaseId : Option String
  diseaseDescription : Option String
deriving DecidableEq

/-- The fields of a UniProt JSON payload the script extracts.
`proteinName` stands for the chain
`proteinDescription.recommendedName.fullName.value` (absent at any level
collapses to `none`), `organism` for `organism.scientificName`. -/
structure UPayload where
  proteinName : Option String
  organism : Option String
  comments : List DisComment

/-- One extracted disease association. -/
structure DiseaseEntry where
  disease_id : String
  disease_name : String
  description : String
deriving DecidableEq

/-- The per-comment extraction of `fetch_uniprot_disease` (lines 89–96):
keep `DISEASE`-type comments, defaulting each missing field to `""` and
deriving `disease_name` by deleting "DI-" from the disease id. -/
def extract_diseases (cs : List DisComment) : List DiseaseEntry :=
  (cs.filter (fun c => c.commentType == "DISEASE")).map (fun c =>
    { disease_id := c.diseaseId.getD ""
      disease_name := (c.diseaseId.getD "").replace "DI-" ""
      description := c.diseaseDescription.getD "" })

/-- `json.dumps` of one disease dict (`ensure_ascii=False`, default
separators). -/
def dump_disease (e : DiseaseEntry) : String :=
  "\x7b\"disease_id\": \"" ++ e.disease_id ++ "\", \"disease_name\": \"" ++
    e.disease_name ++ "\", \"description\": \"" ++ e.description ++ "\"\x7d"

/-- `json.dumps` of the disease list; the empty list serialises to `"[]"`. -/
def dump_diseases (l : List DiseaseEntry) : String :=
  "[" ++ String.intercalate ", " (l.map dump_disease) ++ "]"

/-- The record returned by `fetch_uniprot_disease` (lines 98–103). -/
structure AnnotRecord where
  uniprot_id : String
  protein_name : String
  organism : String
  diseases : String
deriving DecidableEq

/-- `fetch_uniprot_disease` (lines 71–106), parameterised by the HTTP
status and parsed payload of the single request it issues: non-200 yields
`None`; otherwise the extracted record, with name and organism defaulting
to `""` and the disease list serialised. -/
def fetch_uniprot_disease (uid : String) (status : Nat) (payload : UPayload) :
    Option AnnotRecord :=
  if status != 200 then none
  else some
    { uniprot_id := uid
      protein_name := payload.proteinName.getD ""
      organism := payload.organism.getD ""
      diseases := dump_diseases (extract_diseases payload.comments) }

/-! ### The resumable main loop of `fetch_disease_labels.py` (lines 136–164)

The loop state: the PDB→UniProt mapping cache, the set of PDB ids already
present in the partial-results file, and the accumulated result rows (an
annotation record tagged with its `pdb_id`). -/

structure FLState where
  cache : Ckpt
  donePdbs : List String
  results : List (AnnotRecord × String)
deriving DecidableEq

/-- One iteration of the loop for a single `pdb_id`, parameterised by the
two network oracles (`pdb_to_uniprot` mapping lookup and the annotation
fetch).  Returns the new state together with the number of mapping network
calls and of annotation network calls issued.  Mirrors the source: done ids
are skipped outright; a cached mapping (canonical or `null`) is used without
a network call; a falsy mapping skips annotation; a failed annotation fetch
appends nothing. -/
def fl_step (mapO : String → Option String) (disO : String → Option AnnotRecord)
    (st : FLState) (pdb : String) : FLState × Nat × Nat :=
  if pdb ∈ st.donePdbs then (st, 0, 0)
  else
    let step1 : Option String × Ckpt × Nat :=
      match lookupCk st.cache pdb with
      | some v => (v, st.cache, 0)
      | none =>
        let u := mapO pdb
        (u, insertCk st.cache pdb u, 1)
    match step1 with
    | (uni, cache1, mc) =>
      if truthy uni then
        match disO (uni.getD "") with
        | none => ({ st with cache := cache1 }, mc, 1)
        | some r =>
          ({ st with cache := cache1, results := st.results ++ [(r, pdb)] }, mc, 1)
      else ({ st with cache := cache1 }, mc, 0)

/-! ### Basic lemmas about the store and the fetchers -/

theorem truthy_ne_some_empty (v : Option String) (h : truthy v = true) :
    v ≠ some "" := by
  cases v with
  | none => simp [truthy] at h
  | some s =>
    intro hc
    rw [Option.some.injEq] at hc
    subst hc
    simp [truthy] at h

theorem lookupCk_insertCk_self (c : Ckpt) (k : String) (v : Option String) :
    lookupCk (insertCk c k v) k = some v := by
  induction c with
  | nil => simp [insertCk, lookupCk]
  | cons a rest ih =>
    obtain ⟨ak, av⟩ := a
    by_cases hk : ak = k
    · subst hk; simp [insertCk, lookupCk]
    · simp [insertCk, lookupCk, hk, ih]

theorem lookupCk_insertCk_ne (c : Ckpt) (k key : String) (v : Option String)
    (h : k ≠ key) : lookupCk (insertCk c k v) key = lookupCk c key := by
  induction c with
  | nil => simp [insertCk, lookupCk, h]
  | cons a rest ih =>
    obtain ⟨ak, av⟩ := a
    by_cases hk : ak = k
    · subst hk; simp [insertCk, lookupCk, h]
    · by_cases hkey : ak = key
      · subst hkey; simp [insertCk, lookupCk, hk]
      · simp [insertCk, lookupCk, hk, hkey, ih]

theorem lookupCk_apply_results :
    ∀ (rs : List (String × Option String)) (cp : Ckpt) (p : String),
      (∀ kv ∈ rs, kv.1 ≠ p) →
      lookupCk (apply_results cp rs) p = lookupCk cp p
  | [], _, _, _ => rfl
  | kv :: rest, cp, p, h => by
    have h1 : kv.1 ≠ p := h kv (List.mem_cons_self _ _)
    have h2 : ∀ x ∈ rest, x.1 ≠ p := fun x hx => h x (List.mem_cons_of_mem _ hx)
    have hstep : apply_results cp (kv :: rest)
        = apply_results (insertCk cp kv.1 kv.2) rest := rfl
    rw [hstep, lookupCk_apply_results rest _ p h2,
      lookupCk_insertCk_ne _ _ _ _ h1]

theorem needs_fetch_false_of_resolved (cp : Ckpt) (p s : String)
    (hres : lookupCk cp p = some (some s)) (hs : s ≠ "") :
    needs_fetch cp p = false := by
  simp [needs_fetch, hres, truthy, hs]

theorem not_mem_unmapped (ids : List String) (cp : Ckpt) (p : String)
    (hnf : needs_fetch cp p = false) : p ∉ unmapped_ids ids cp := by
  intro hmem
  have := (List.mem_filter.mp hmem).2
  rw [hnf] at this
  exact absurd this (by simp)

theorem mem_unmapped_of_null (ids : List String) (cp : Ckpt) (p : String)
    (hp : p ∈ ids) (hnull : lookupCk cp p = some none) :
    p ∈ unmapped_ids ids cp := by
  refine List.mem_filter.mpr ⟨hp, ?_⟩
  simp [needs_fetch, hnull, truthy]

theorem fetch_uniprot_go_ne_empty : ∀ l, fetch_uniprot_go l ≠ some ""
  | [] => by simp [fetch_uniprot_go]
  | a :: rest => by
    simp only [fetch_uniprot_go]
    split
    · next h => exact truthy_ne_some_empty _ h
    · split
      · next h => exact truthy_ne_some_empty _ h
      · exact fetch_uniprot_go_ne_empty rest

theorem trace_result_eq : ∀ l,
    (fetch_uniprot_trace l).result = fetch_uniprot_go l
  | [] => rfl
  | a :: rest => by
    simp only [fetch_uniprot_trace, fetch_uniprot_go]
    split
    · rfl
    · split
      · rfl
      · exact trace_result_eq rest

theorem trace_prim_calls_le : ∀ l,
    (fetch_uniprot_trace l).prim_calls ≤ l.length
  | [] => by simp [fetch_uniprot_trace]
  | a :: rest => by
    simp only [fetch_uniprot_trace]
    split
    · simp
    · split
      · simp
      · simpa using Nat.succ_le_succ (trace_prim_calls_le rest)

theorem trace_rcsb_calls_le : ∀ l,
    (fetch_uniprot_trace l).rcsb_calls ≤ l.length
  | [] => by simp [fetch_uniprot_trace]
  | a :: rest => by
    simp only [fetch_uniprot_trace]
    split
    · simp
    · split
      · simp
      · simpa using Nat.succ_le_succ (trace_rcsb_calls_le rest)

theorem trace_delays_const : ∀ l,
    (fetch_uniprot_trace l).delays
      = List.replicate (fetch_uniprot_trace l).delays.length ((3 : ℚ) / 10)
  | [] => rfl
  | a :: rest => by
    simp only [fetch_uniprot_trace]
    split
    · rfl
    · split
      · rfl
      · simpa [List.replicate_succ] using trace_delays_const rest

/-! ### Merger (`merge_anomalies_with_disease.py`)

The feature table: the `protein_id` key column plus the remaining feature
columns, kept opaque as a payload of type `α`.  The disease table mirrors
`pdb_uniprot_disease_final.csv`; its `diseases` cell may be missing (NaN). -/

structure FeatRow (α : Type) where
  protein_id : String
  feat : α
deriving DecidableEq

structure DisRow where
  pdb_id : String
  uniprot_id : String
  protein_name : String
  organism : String
  diseases : Option String
deriving DecidableEq

/-- One row of the merged output.  The right-hand `pdb_id` key column is
dropped (lines 46–47); the annotation columns are `None` (pandas NaN) for
rows without a match. -/
structure MergedRow (α : Type) where
  protein_id : String
  feat : α
  uniprot_id : Option String
  protein_name : Option String
  organism : Option String
  diseases : Option String
deriving DecidableEq

/-- Line 34: `disease_df["pdb_id"] = disease_df["pdb_id"].astype(str).str.upper()`. -/
def norm_dis (dt : List DisRow) : List DisRow :=
  dt.map (fun d => { d with pdb_id := upperStr d.pdb_id })

/-- The disease-table rows whose (already normalised) key equals `k`. -/
def matches_for (dt : List DisRow) (k : String) : List DisRow :=
  dt.filter (fun d => d.pdb_id == k)

/-- Lines 33–47: `pd.merge(anom_df, disease_df, how="left",
left_on="protein_id", right_on="pdb_id")` after uppercasing both key
columns, then dropping `pdb_id`.  A pandas left merge emits, for each left
row in order, one row per matching right row (in right-table order), or a
single all-NaN-annotated row when there is no match. -/
def row_block {α : Type} (dt : List DisRow) (r : FeatRow α) :
    List (MergedRow α) :=
  match matches_for (norm_dis dt) (upperStr r.protein_id) with
  | [] => [⟨upperStr r.protein_id, r.feat, none, none, none, none⟩]
  | ms => ms.map (fun d =>
      ⟨upperStr r.protein_id, r.feat, some d.uniprot_id, some d.protein_name,
        some d.organism, d.diseases⟩)

def merged_rows {α : Type} (ft : List (FeatRow α)) (dt : List DisRow) :
    List (MergedRow α) :=
  ft.flatMap (row_block dt)

/-- Line 55: `merged["diseases"].notna().sum()`. -/
def with_disease {α : Type} (m : List (MergedRow α)) : Nat :=
  (m.filter (fun o => o.diseases.isSome)).length

/-- Line 56: `coverage = (with_disease / total) * 100`. -/
def coverage_pct {α : Type} (m : List (MergedRow α)) : ℚ :=
  ((with_disease m : ℚ) / (m.length : ℚ)) * 100

/-- The two-decimal rendering of line 61 (`f"{coverage:.2f}%"`), as an
integer number of hundredths: `7000` renders as `70.00`. -/
def pct_hundredths (q : ℚ) : ℤ := ⌊q * 100 + 1 / 2⌋

/-! ### Structural lemmas about the merge -/

theorem map_const_eq_replicate {β γ : Type} (l : List β) (c : γ) :
    l.map (fun _ => c) = List.replicate l.length c := by
  induction l with
  | nil => rfl
  | cons x xs ih => simp [List.replicate_succ, ih]

theorem row_block_map_pair {α : Type} (dt : List DisRow) (r : FeatRow α) :
    (row_block dt r).map (fun o => (o.protein_id, o.feat))
      = List.replicate
          (max 1 (matches_for (norm_dis dt) (upperStr r.protein_id)).length)
          (upperStr r.protein_id, r.feat) := by
  cases h : matches_for (norm_dis dt) (upperStr r.protein_id) with
  | nil => simp [row_block, h]
  | cons d ds =>
    simp only [row_block, h, List.map_map]
    rw [Nat.max_eq_right (by simp)]
    show (d :: ds).map (fun _ => (upperStr r.protein_id, r.feat))
        = List.replicate (d :: ds).length (upperStr r.protein_id, r.feat)
    exact map_const_eq_replicate _ _

theorem row_block_length {α : Type} (dt : List DisRow) (r : FeatRow α) :
    (row_block dt r).length
      = max 1 (matches_for (norm_dis dt) (upperStr r.protein_id)).length := by
  have h := congrArg List.length (row_block_map_pair dt r)
  simpa using h

theorem row_block_ne_nil {α : Type} (dt : List DisRow) (r : FeatRow α) :
    row_block dt r ≠ [] := by
  intro h
  have hl := row_block_length dt r
  rw [h] at hl
  simp at hl
  omega

theorem row_block_mem {α : Type} (dt : List DisRow) (r : FeatRow α)
    (o : MergedRow α) (ho : o ∈ row_block dt r) :
    o.protein_id = upperStr r.protein_id ∧ o.feat = r.feat := by
  have h := row_block_map_pair dt r
  have hm : (o.protein_id, o.feat)
      ∈ (row_block dt r).map (fun o => (o.protein_id, o.feat)) :=
    List.mem_map_of_mem _ ho
  rw [h] at hm
  have he := List.eq_of_mem_replicate hm
  exact ⟨congrArg Prod.fst he, congrArg Prod.snd he⟩

theorem merged_rows_map_pair {α : Type} (ft : List (FeatRow α)) (dt : List DisRow) :
    (merged_rows ft dt).map (fun o => (o.protein_id, o.feat))
      = ft.flatMap (fun r =>
          List.replicate
            (max 1 (matches_for (norm_dis dt) (upperStr r.protein_id)).length)
            (upperStr r.protein_id, r.feat)) := by
  induction ft with
  | nil => rfl
  | cons r ft ih =>
    show ((row_block dt r) ++ merged_rows ft dt).map _ = _
    rw [List.map_append, row_block_map_pair, ih]
    rfl

theorem merged_rows_length {α : Type} (ft : List (FeatRow α)) (dt : List DisRow) :
    (merged_rows ft dt).length
      = (ft.map (fun r =>
          max 1 (matches_for (norm_dis dt) (upperStr r.protein_id)).length)).sum := by
  induction ft with
  | nil => rfl
  | cons r ft ih =>
    show ((row_block dt r) ++ merged_rows ft dt).length = _
    rw [List.length_append, row_block_length, ih]
    rfl

theorem merged_rows_length_ge {α : Type} (ft : List (FeatRow α)) (dt : List DisRow) :
    ft.length ≤ (merged_rows ft dt).length := by
  induction ft with
  | nil => simp [merged_rows]
  | cons r ft ih =>
    show _ ≤ ((row_block dt r) ++ merged_rows ft dt).length
    have h1 : 1 ≤ (row_block dt r).length := by
      rw [row_block_length]; exact Nat.le_max_left _ _
    simp only [List.length_cons, List.length_append]
    omega

theorem matches_for_length_le_one :
    ∀ (l : List DisRow) (k : String),
      l.Pairwise (fun a b => a.pdb_id ≠ b.pdb_id) →
      (matches_for l k).length ≤ 1
  | [], _, _ => by simp [matches_for]
  | d :: rest, k, h => by
    have hpw := List.pairwise_cons.mp h
    by_cases hd : (d.pdb_id == k) = true
    · have hk : d.pdb_id = k := by simpa using hd
      have hrest : matches_for rest k = [] := by
        apply List.filter_eq_nil_iff.mpr
        intro b hb
        have hne := hpw.1 b hb
        rw [hk] at hne
        have hne' : b.pdb_id ≠ k := Ne.symm hne
        simp [hne']
      have hcons : matches_for (d :: rest) k = d :: matches_for rest k := by
        simp [matches_for, List.filter_cons, hd]
      rw [hcons, hrest]
      simp
    · have : matches_for (d :: rest) k = matches_for rest k := by
        simp [matches_for, List.filter_cons, hd]
      rw [this]
      exact matches_for_length_le_one rest k hpw.2

theorem merged_rows_length_eq_of_unique {α : Type} (ft : List (FeatRow α))
    (dt : List DisRow)
    (h : (norm_dis dt).Pairwise (fun a b => a.pdb_id ≠ b.pdb_id)) :
    (merged_rows ft dt).length = ft.length := by
  rw [merged_rows_length]
  induction ft with
  | nil => rfl
  | cons r ft ih =>
    have hle := matches_for_length_le_one (norm_dis dt) (upperStr r.protein_id) h
    simp only [List.map_cons, List.sum_cons, List.length_cons]
    rw [ih]
    omega

theorem merged_rows_covers {α : Type} (ft : List (FeatRow α)) (dt : List DisRow)
    (r : FeatRow α) (hr : r ∈ ft) :
    ∃ o ∈ merged_rows ft dt,
      o.protein_id = upperStr r.protein_id ∧ o.feat = r.feat := by
  obtain ⟨o, ho⟩ : ∃ o, o ∈ row_block dt r :=
    List.exists_mem_of_ne_nil _ (row_block_ne_nil dt r)
  exact ⟨o, List.mem_flatMap.mpr ⟨r, hr, ho⟩, row_block_mem dt r o ho⟩

theorem merged_rows_sound {α : Type} (ft : List (FeatRow α)) (dt : List DisRow)
    (o : MergedRow α) (ho : o ∈ merged_rows ft dt) :
    ∃ r ∈ ft, o.protein_id = upperStr r.protein_id ∧ o.feat = r.feat := by
  obtain ⟨r, hr, hor⟩ := List.mem_flatMap.mp ho
  exact ⟨r, hr, row_block_mem dt r o hor⟩

/-! ### Concrete scenarios used by the claim theorems -/

/-- A fallback scenario: the primary backend raises a fetch error, RCSB
entity 1 carries the UniProt accession P12345. -/
def attemptFallback : Attempt :=
  ⟨HResp.exn, [RResp.http 200 [⟨some "UniProt", some "P12345"⟩]]⟩

/-- The primary backend itself answers P12345. -/
def attemptPrimaryOk : Attempt := ⟨HResp.http 200 "P12345", []⟩

/-- Every backend call raises a fetch error (timeout / connection reset). -/
def attemptAllError : Attempt :=
  ⟨HResp.exn, [RResp.exn, RResp.exn, RResp.exn, RResp.exn]⟩

/-- Every backend definitively answers not-found (404 everywhere). -/
def attemptAllNotFound : Attempt :=
  ⟨HResp.http 404 "",
   [RResp.http 404 [], RResp.http 404 [], RResp.http 404 [], RResp.http 404 []]⟩

/-! ### Claim C1 -/

/-- Claim C1 (confirmed): once a checkpoint entry for a source id holds a
non-null canonical identifier, a later run of the resolution step excludes
that id from the set of ids to fetch, and every checkpoint write — periodic
(any prefix of the completion fold) or final — still contains the previously
successful mapping unchanged.  The cached value is hypothesised non-empty as
well as non-null: the final conjunct shows fetch_uniprot never returns the
empty string (the script filters falsy values), so every checkpoint the
script itself produces satisfies this. -/
theorem c1_resolved_checkpoint_monotone
    (ids : List String) (cp : Ckpt) (p s : String)
    (rs : List (String × Option String))
    (hres : lookupCk cp p = some (some s)) (hs : s ≠ "")
    (hrs : ∀ kv ∈ rs, kv.1 ∈ unmapped_ids ids cp) :
    p ∉ unmapped_ids ids cp
    ∧ (∀ n, lookupCk (apply_results cp (rs.take n)) p = some (some s))
    ∧ (∀ a1 a2, fetch_uniprot a1 a2 ≠ some "") := by
  have hnf := needs_fetch_false_of_resolved cp p s hres hs
  refine ⟨not_mem_unmapped ids cp p hnf, ?_,
    fun a1 a2 => fetch_uniprot_go_ne_empty _⟩
  intro n
  have hne : ∀ kv ∈ rs.take n, kv.1 ≠ p := by
    intro kv hkv hkp
    have hmem := hrs kv (List.mem_of_mem_take hkv)
    rw [hkp] at hmem
    exact not_mem_unmapped ids cp p hnf hmem
  rw [lookupCk_apply_results _ _ _ hne, hres]

/-- Concrete instantiation of the C1 theorem: a resolved entry survives a
run that fetches the remaining id. -/
theorem c1_resolved_checkpoint_monotone_witness :
    "1ABC" ∉ unmapped_ids ["1ABC", "2XYZ"] [("1ABC", some "P12345")]
    ∧ lookupCk
        (apply_results [("1ABC", some "P12345")] [("2XYZ", some "Q00001")])
        "1ABC" = some (some "P12345") := by
  have h := c1_resolved_checkpoint_monotone ["1ABC", "2XYZ"]
    [("1ABC", some "P12345")] "1ABC" "P12345" [("2XYZ", some "Q00001")]
    (by decide) (by decide) (by decide)
  exact ⟨h.1, h.2.1 1⟩

/-! ### Claim C2 -/

/-- Claim C2 counterexample: an id cached with a null value is NOT returned
from the cache — it is put back into the set of ids to fetch, so a second
run issues a network call for it. -/
theorem c2_cached_null_refetched :
    lookupCk [("1ABC", none)] "1ABC" = some none
    ∧ "1ABC" ∈ unmapped_ids ["1ABC"] [("1ABC", none)] := by decide

/-- Claim C2 (amended): in the mapper, only ids whose cached value is a
non-null canonical id are excluded from fetching; ids cached null are
re-fetched on a later run.  In the disease-labels fetcher, an id present in
the mapping cache (canonical or null) triggers no mapping network call, and
an id already in the partial-results file triggers no network call at all
and leaves the state unchanged. -/
theorem c2_cache_first_amended :
    (∀ (ids : List String) (cp : Ckpt) (p s : String),
        lookupCk cp p = some (some s) → s ≠ "" → p ∉ unmapped_ids ids cp)
    ∧ (∀ (ids : List String) (cp : Ckpt) (p : String),
        p ∈ ids → lookupCk cp p = some none → p ∈ unmapped_ids ids cp)
    ∧ (∀ (mapO : String → Option String) (disO : String → Option AnnotRecord)
        (st : FLState) (pdb : String) (v : Option String),
        lookupCk st.cache pdb = some v → (fl_step mapO disO st pdb).2.1 = 0)
    ∧ (∀ (mapO : String → Option String) (disO : String → Option AnnotRecord)
        (st : FLState) (pdb : String),
        pdb ∈ st.donePdbs →
        fl_step mapO disO st pdb = (st, 0, 0)) := by
  refine ⟨?_, ?_, ?_, ?_⟩
  · intro ids cp p s hres hs
    exact not_mem_unmapped ids cp p (needs_fetch_false_of_resolved cp p s hres hs)
  · exact fun ids cp p hp hnull => mem_unmapped_of_null ids cp p hp hnull
  · intro mapO disO st pdb v hv
    by_cases hm : pdb ∈ st.donePdbs
    · simp [fl_step, hm]
    · simp only [fl_step, hv, if_neg hm]
      split
      · split <;> rfl
      · rfl
  · intro mapO disO st pdb hd
    simp [fl_step, hd]

/-- Concrete instantiation of the amended C2 theorem. -/
theorem c2_cache_first_amended_witness :
    "1ABD" ∉ unmapped_ids ["1ABD"] [("1ABD", some "P55555")]
    ∧ "2NUL" ∈ unmapped_ids ["2NUL"] [("2NUL", none)]
    ∧ (fl_step (fun _ => none) (fun _ => none)
        ⟨[("3DEF", some "P2")], [], []⟩ "3DEF").2.1 = 0
    ∧ fl_step (fun _ => none) (fun _ => none) ⟨[], ["4GHI"], []⟩ "4GHI"
        = (⟨[], ["4GHI"], []⟩, 0, 0) :=
  ⟨c2_cache_first_amended.1 _ _ _ "P55555" (by decide) (by decide),
   c2_cache_first_amended.2.1 _ _ _ (by decide) (by decide),
   c2_cache_first_amended.2.2.1 _ _ _ _ (some "P2") (by decide),
   c2_cache_first_amended.2.2.2 _ _ _ _ (by decide)⟩

/-! ### Claim C3 -/

/-- A one-row feature table whose key matches two annotation rows. -/
def ftC3 : List (FeatRow Nat) := [⟨"1abc", 1⟩]

def dtC3 : List DisRow :=
  [⟨"1abc", "P1", "N1", "O1", some "[]"⟩, ⟨"1ABC", "P1", "N1", "O2", some "[]"⟩]

/-- Claim C3 counterexample: when two annotation rows share the identifier
key, the left merge fans out — the output has two rows for a one-row
feature table, so the output length is not always the input length. -/
theorem c3_join_fanout_counterexample :
    ftC3.length = 1 ∧ (merged_rows ftC3 dtC3).length = 2 := by decide

/-- Claim C3 (amended): the merge never drops an input row and its output
has at least as many rows as the feature table; one output row per input
row holds exactly when the (normalised) annotation keys are unique —
duplicated keys fan out. -/
theorem c3_join_completeness_amended {α : Type} (ft : List (FeatRow α))
    (dt : List DisRow) :
    ft.length ≤ (merged_rows ft dt).length
    ∧ (∀ r ∈ ft, ∃ o ∈ merged_rows ft dt,
        o.protein_id = upperStr r.protein_id ∧ o.feat = r.feat)
    ∧ ((norm_dis dt).Pairwise (fun a b => a.pdb_id ≠ b.pdb_id) →
        (merged_rows ft dt).length = ft.length) :=
  ⟨merged_rows_length_ge ft dt,
   fun r hr => merged_rows_covers ft dt r hr,
   fun h => merged_rows_length_eq_of_unique ft dt h⟩

/-- Concrete instantiation of the amended C3 theorem: with unique keys the
output length equals the input length. -/
theorem c3_join_completeness_amended_witness :
    (merged_rows [(⟨"2def", 5⟩ : FeatRow Nat)]
        [⟨"2DEF", "P2", "N", "O", some "[]"⟩]).length
      = [(⟨"2def", 5⟩ : FeatRow Nat)].length :=
  (c3_join_completeness_amended _ _).2.2 (by simp [norm_dis])

/-! ### Claim C4 -/

/-- Claim C4 counterexample: the code records no backend field at all — the
checkpoint entry written when the primary backend errors and the secondary
(RCSB) supplies P12345 is identical to the entry written when the primary
itself supplies P12345, so the recorded outcome cannot identify which
backend produced the success. -/
theorem c4_no_backend_provenance :
    fetch_uniprot attemptFallback attemptFallback = some "P12345"
    ∧ fetch_uniprot attemptPrimaryOk attemptPrimaryOk = some "P12345"
    ∧ insertCk [] "1ABC" (fetch_uniprot attemptFallback attemptFallback)
        = insertCk [] "1ABC" (fetch_uniprot attemptPrimaryOk attemptPrimaryOk) := by
  decide

/-- Claim C4 (amended): when the primary backend raises a fetch error and
the secondary backend returns P12345, the resolution outcome is the
canonical id P12345 (a resolved mapping); no backend field is recorded. -/
theorem c4_backend_fallback_amended (a1 a2 : Attempt)
    (hp : a1.prim = HResp.exn)
    (hs : fetch_uniprot_from_rcsb a1.rcsb = some "P12345") :
    fetch_uniprot a1 a2 = some "P12345" := by
  have h1 : fetch_uniprot_from_uniprot_api a1.prim = none := by
    rw [hp]; rfl
  have ht : truthy (some "P12345") = true := by decide
  simp [fetch_uniprot, fetch_uniprot_go, h1, hs, ht, truthy]

/-- Concrete instantiation of the amended C4 theorem. -/
theorem c4_backend_fallback_amended_witness :
    fetch_uniprot attemptFallback ⟨HResp.exn, []⟩ = some "P12345" :=
  c4_backend_fallback_amended attemptFallback ⟨HResp.exn, []⟩ rfl (by decide)

/-! ### Claim C5 -/

/-- Claim C5 counterexample: an id for which every backend attempt ended in
a fetch error and an id for which every backend definitively answered
not-found produce the SAME null checkpoint entry — there is no distinct
Error state, no attempts counter and no last_error, so the two cases are
not distinguishable from the checkpoint. -/
theorem c5_error_unresolved_indistinguishable :
    fetch_uniprot attemptAllError attemptAllError = none
    ∧ fetch_uniprot attemptAllNotFound attemptAllNotFound = none
    ∧ insertCk [] "1ABC" (fetch_uniprot attemptAllError attemptAllError)
        = insertCk [] "1ABC" (fetch_uniprot attemptAllNotFound attemptAllNotFound) := by
  decide

/-- Claim C5 (amended): whether every backend definitively answers none or
every backend attempt ends in a fetch error, the recorded outcome is the
same null checkpoint entry (no Error status, attempts counter or last_error
is recorded); a null entry is retry-eligible — it re-enters the set of ids
to fetch on a subsequent run.  The retry-eligibility therefore applies to
authoritative negatives exactly as to errors. -/
theorem c5_null_outcome_amended (a1 a2 : Attempt)
    (h1 : fetch_uniprot_from_uniprot_api a1.prim = none)
    (h2 : fetch_uniprot_from_rcsb a1.rcsb = none)
    (h3 : fetch_uniprot_from_uniprot_api a2.prim = none)
    (h4 : fetch_uniprot_from_rcsb a2.rcsb = none) :
    fetch_uniprot a1 a2 = none
    ∧ (∀ (cp : Ckpt) (p : String) (ids : List String),
        lookupCk (insertCk cp p (fetch_uniprot a1 a2)) p = some none
        ∧ (p ∈ ids →
            p ∈ unmapped_ids ids (insertCk cp p (fetch_uniprot a1 a2)))) := by
  have hf : fetch_uniprot a1 a2 = none := by
    simp [fetch_uniprot, fetch_uniprot_go, h1, h2, h3, h4, truthy]
  refine ⟨hf, fun cp p ids => ?_⟩
  rw [hf]
  exact ⟨lookupCk_insertCk_self cp p none,
    fun hp => mem_unmapped_of_null ids _ p hp (lookupCk_insertCk_self cp p none)⟩

/-- Concrete instantiation of the amended C5 theorem. -/
theorem c5_null_outcome_amended_witness :
    lookupCk (insertCk [] "9XYZ" (fetch_uniprot attemptAllError attemptAllError))
        "9XYZ" = some none
    ∧ "9XYZ" ∈ unmapped_ids ["9XYZ"]
        (insertCk [] "9XYZ" (fetch_uniprot attemptAllError attemptAllError)) := by
  have h := c5_null_outcome_amended attemptAllError attemptAllError rfl rfl rfl rfl
  have h3 := h.2 [] "9XYZ" ["9XYZ"]
  exact ⟨h3.1, h3.2 (by decide)⟩

/-! ### Claim C6 -/

/-- Claim C6 counterexample: a definitive not-found answer (404 from every
backend) IS retried — with 404 responses throughout, the primary backend is
called at both attempts and a sleep is executed after each failed attempt. -/
theorem c6_definitive_notfound_retried :
    (fetch_uniprot_trace [attemptAllNotFound, attemptAllNotFound]).prim_calls = 2
    ∧ (fetch_uniprot_trace [attemptAllNotFound, attemptAllNotFound]).delays.length
        = 2 := by decide

/-- Claim C6 (amended): each lookup makes at most two attempts per backend
and pauses a constant 0.3 seconds after each fully failed attempt — a fixed
delay, not exponential backoff with jitter — and it retries all failures
alike: definitive not-found answers (404 / authoritative empty) are retried
exactly like transient errors.  The instrumented trace agrees with the
uninstrumented fetch on the result. -/
theorem c6_retry_policy_amended :
    (∀ a1 a2, (fetch_uniprot_trace [a1, a2]).prim_calls ≤ 2
      ∧ (fetch_uniprot_trace [a1, a2]).rcsb_calls ≤ 2
      ∧ (fetch_uniprot_trace [a1, a2]).delays
          = List.replicate (fetch_uniprot_trace [a1, a2]).delays.length
              ((3 : ℚ) / 10)
      ∧ (fetch_uniprot_trace [a1, a2]).result = fetch_uniprot a1 a2)
    ∧ (fetch_uniprot_trace [attemptAllNotFound, attemptAllNotFound]).prim_calls
        = 2 := by
  refine ⟨fun a1 a2 => ⟨?_, ?_, trace_delays_const _, trace_result_eq _⟩,
    by decide⟩
  · simpa using trace_prim_calls_le [a1, a2]
  · simpa using trace_rcsb_calls_le [a1, a2]

/-! ### Claim C7 -/

/-- Claim C7 (confirmed): a payload that parses successfully (a 200
response) but contains zero DISEASE-type comment sections yields a valid
annotation record — not an error or a skipped record — whose disease list
serialises to "[]", with name and organism populated and defaulting to the
empty string when absent. -/
theorem c7_empty_disease_list_valid (uid : String) (payload : UPayload)
    (h : payload.comments.filter (fun c => c.commentType == "DISEASE") = []) :
    fetch_uniprot_disease uid 200 payload =
      some { uniprot_id := uid
             protein_name := payload.proteinName.getD ""
             organism := payload.organism.getD ""
             diseases := "[]" } := by
  have hd : dump_diseases (extract_diseases payload.comments) = "[]" := by
    rw [extract_diseases, h]
    decide
  simp [fetch_uniprot_disease, hd]

/-- Concrete instantiation of the C7 theorem: a payload with a non-disease
comment and populated name/organism. -/
theorem c7_empty_disease_list_valid_witness :
    fetch_uniprot_disease "P99999" 200
        ⟨some "Tau", some "Homo sapiens", [⟨"FUNCTION", none, none⟩]⟩
      = some ⟨"P99999", "Tau", "Homo sapiens", "[]"⟩ :=
  c7_empty_disease_list_valid "P99999"
    ⟨some "Tau", some "Homo sapiens", [⟨"FUNCTION", none, none⟩]⟩ (by decide)

/-! ### Claim C8 -/

/-- Claim C8 (confirmed): the merge is a pure function of the checkpoint
snapshot and feature table — two runs on identical inputs produce the
identical output term, with no run-to-run state — and the output preserves
the original feature-table row order: projecting the output onto
(identifier, features) yields the input rows in their original order, each
appearing contiguously once per matching annotation row (exactly once when
unmatched). -/
theorem c8_merge_order_stable {α : Type} (ft : List (FeatRow α))
    (dt : List DisRow) :
    (merged_rows ft dt).map (fun o => (o.protein_id, o.feat))
      = ft.flatMap (fun r =>
          List.replicate
            (max 1 (matches_for (norm_dis dt) (upperStr r.protein_id)).length)
            (upperStr r.protein_id, r.feat)) :=
  merged_rows_map_pair ft dt

/-! ### Claim C9 -/

/-- Ten feature rows: A1–A7 resolve and carry annotation rows, B1, B2 and
C1 have no annotation (unresolved / failed are indistinguishable to the
merge — both are simply absent from the annotation table). -/
def ftC9 : List (FeatRow Nat) :=
  [⟨"A1", 1⟩, ⟨"A2", 2⟩, ⟨"A3", 3⟩, ⟨"A4", 4⟩, ⟨"A5", 5⟩, ⟨"A6", 6⟩,
   ⟨"A7", 7⟩, ⟨"B1", 8⟩, ⟨"B2", 9⟩, ⟨"C1", 10⟩]

def dtC9 : List DisRow :=
  [⟨"A1", "P1", "N1", "O", some "[]"⟩, ⟨"A2", "P2", "N2", "O", some "[]"⟩,
   ⟨"A3", "P3", "N3", "O", some "[]"⟩, ⟨"A4", "P4", "N4", "O", some "[]"⟩,
   ⟨"A5", "P5", "N5", "O", some "[]"⟩, ⟨"A6", "P6", "N6", "O", some "[]"⟩,
   ⟨"A7", "P7", "N7", "O", some "[]"⟩]

/-- Claim C9 (confirmed): coverage is (rows with non-null diseases) /
(total rows) × 100; on the synthetic 10-row input with 7 annotated rows it
is exactly 70, which renders as 70.00 under two-decimal formatting
(7000 hundredths). -/
theorem c9_coverage_seventy :
    coverage_pct (merged_rows ftC9 dtC9) = 70
    ∧ pct_hundredths (coverage_pct (merged_rows ftC9 dtC9)) = 7000 := by
  have h1 : with_disease (merged_rows ftC9 dtC9) = 7 := by decide
  have h2 : (merged_rows ftC9 dtC9).length = 10 := by decide
  have hc : coverage_pct (merged_rows ftC9 dtC9) = 70 := by
    unfold coverage_pct
    rw [h1, h2]
    norm_num
  refine ⟨hc, ?_⟩
  rw [hc]
  unfold pct_hundredths
  norm_num

/-! ### Claim C10 -/

/-- Claim C10 (confirmed): frame property of the merge — all original
feature columns except the identifier appear unchanged in the output (in
the original order, repeated per fan-out block), while the identifier
column is rewritten to its uppercased form before joining, so every output
identifier equals uppercase(input identifier). -/
theorem c10_merge_frame {α : Type} (ft : List (FeatRow α)) (dt : List DisRow) :
    ((merged_rows ft dt).map (fun o => o.feat)
      = ft.flatMap (fun r =>
          List.replicate
            (max 1 (matches_for (norm_dis dt) (upperStr r.protein_id)).length)
            r.feat))
    ∧ (∀ o ∈ merged_rows ft dt, ∃ r ∈ ft,
        o.feat = r.feat ∧ o.protein_id = upperStr r.protein_id) := by
  constructor
  · have h := congrArg (List.map Prod.snd) (merged_rows_map_pair ft dt)
    simpa [List.map_map, List.map_flatMap, List.map_replicate,
      Function.comp] using h
  · intro o ho
    obtain ⟨r, hr, h1, h2⟩ := merged_rows_sound ft dt o ho
    exact ⟨r, hr, h2, h1⟩

/-- Concrete instantiation of the C10 theorem: the single output row of a
one-row table keeps its feature value and uppercases its identifier. -/
theorem c10_merge_frame_witness :
    (9 : Nat) = (9 : Nat) ∧ "3GHI" = upperStr "3ghi" := by
  have h := (c10_merge_frame [(⟨"3ghi", 9⟩ : FeatRow Nat)] ([] : List DisRow)).2
    ⟨"3GHI", 9, none, none, none, none⟩ (by decide)
  simpa using h

end Prism
